import Mathlib

/-!
Shallow embedding of the webtor-rs bootstrap core: consensus fetching and
caching (`src/webtor/src/consensus.rs`), directory-over-circuit retrieval
(`src/webtor/src/directory.rs`), the WebTunnel disguised transport
(`src/webtor/src/webtunnel.rs`), and the lock-free liveness timestamp
(`src/vendor/arti/crates/tor-proto/src/util/ts.rs`).

Pure functions of the source are translated directly; stateful code is
modelled by explicit state passing (the atomic word of the timestamp and
the consensus cache become explicit values threaded through the
operations); machine integers and time ticks are `Nat`; fallible Rust
functions returning `Result` become `Except String`.
-/

namespace Ts

/-!
Model of `AtomicOptTimestamp` (ts.rs, native backend).  The single atomic
word `latest : AtomicU64` is modelled as an explicit `Nat` state; each
operation maps the current stored value (and, where the source takes one,
the instant `now` in coarsetime ticks) to the new stored value.  Zero is
the "never set" sentinel, exactly as in the source.
-/

/-- Rust `AtomicOptTimestamp::new` / `clear` store the sentinel 0 (ts.rs lines 27-31, 49-51). -/
def clear (_latest : Nat) : Nat := 0

/-- Rust `AtomicOptTimestamp::update_to` (ts.rs lines 81-83): `latest.fetch_max(now.as_ticks())`. -/
def update_to (latest now : Nat) : Nat := max latest now

/-- Rust `AtomicOptTimestamp::update_if_none` (ts.rs lines 40-46):
`compare_exchange(0, now)` writes `now` only when the stored value is 0. -/
def update_if_none (latest now : Nat) : Nat :=
  if latest = 0 then now else latest

/-- Rust `AtomicOptTimestamp::time_since_update_at` (ts.rs lines 66-77):
`if now >= earlier && earlier != 0 { Some(Duration::from_ticks(now - earlier)) } else { None }`. -/
def time_since_update_at (latest now : Nat) : Option Nat :=
  if now ≥ latest ∧ latest ≠ 0 then some (now - latest) else none

end Ts

namespace Wire

/-!
HTTP header/body boundary handling shared by the plaintext bootstrap fetch
(`ConsensusManager::http_fetch`, consensus.rs lines 266-272, operating on a
`String`) and the over-tunnel fetch (`DirectoryManager::fetch_consensus`,
directory.rs lines 84-91, operating on raw bytes).  Both locate the first
occurrence of `\r\n\r\n`; Rust's `str::find` and
`windows(4).position(|w| w == b"\r\n\r\n")` both return the index of the
first occurrence, modelled here by `findSub`.
-/

/-- Predicate `isPrefixAt pat s` decides whether `pat` occurs at the start of `s`. -/
def isPrefixAt {α : Type} [DecidableEq α] : List α → List α → Bool
  | [], _ => true
  | _ :: _, [] => false
  | p :: ps, a :: xs => decide (p = a) && isPrefixAt ps xs

/-- Index of the first occurrence of `pat` in `s` (Rust `str::find` /
`slice::windows(..).position(..)` semantics). -/
def findSub {α : Type} [DecidableEq α] (pat : List α) : List α → Option Nat
  | [] => if pat.isEmpty then some 0 else none
  | a :: rest =>
      if isPrefixAt pat (a :: rest) then some 0
      else (findSub pat rest).map (fun n => n + 1)

/-- The boundary `\r\n\r\n` as characters (plaintext path, `String::find`). -/
def httpBoundary : List Char := ['\r', '\n', '\r', '\n']

/-- The boundary `b"\r\n\r\n"` as bytes (over-tunnel path, `windows(4)`). -/
def dirBoundary : List Nat := [13, 10, 13, 10]

/-- Header stripping of `ConsensusManager::http_fetch` (consensus.rs
lines 266-272): on `Some(body_start)` return the text after the boundary,
otherwise fail with "Invalid HTTP response". -/
def http_fetch_body (response : List Char) : Except String (List Char) :=
  match findSub httpBoundary response with
  | some body_start => .ok (response.drop (body_start + 4))
  | none => .error "Invalid HTTP response"

/-- Header stripping of `DirectoryManager::fetch_consensus` (directory.rs
lines 84-90): `position` mapped through `+ 4`, with `unwrap_or(0)`, then
slice from `body_start`. -/
def dir_fetch_body (response : List Nat) : List Nat :=
  let body_start := ((findSub dirBoundary response).map (fun i => i + 4)).getD 0
  response.drop body_start

end Wire

-- Helper lemmas about `findSub` (first-occurrence characterisation).

theorem Wire.isPrefixAt_nil_right {α : Type} [DecidableEq α] (pat : List α)
    (h : pat ≠ []) : Wire.isPrefixAt pat [] = false := by
  cases pat with
  | nil => exact absurd rfl h
  | cons p ps => rfl

theorem Wire.findSub_some_charac {α : Type} [DecidableEq α] (pat : List α) :
    ∀ (s : List α) (i : Nat), Wire.findSub pat s = some i →
      Wire.isPrefixAt pat (s.drop i) = true ∧
      ∀ j, j < i → Wire.isPrefixAt pat (s.drop j) = false := by
  intro s
  induction s with
  | nil =>
    intro i h
    simp only [Wire.findSub] at h
    by_cases hp : pat.isEmpty
    · simp [hp] at h
      subst h
      rcases pat with _ | ⟨p, ps⟩
      · exact ⟨rfl, fun j hj => absurd hj (Nat.not_lt_zero j)⟩
      · simp [List.isEmpty] at hp
    · simp [hp] at h
  | cons a rest ih =>
    intro i h
    simp only [Wire.findSub] at h
    by_cases hpre : Wire.isPrefixAt pat (a :: rest) = true
    · simp [hpre] at h
      subst h
      exact ⟨hpre, fun j hj => absurd hj (Nat.not_lt_zero j)⟩
    · simp [hpre] at h
      rcases h with ⟨n, hn, hni⟩
      subst hni
      rcases ih n hn with ⟨h1, h2⟩
      refine ⟨h1, ?_⟩
      intro j hj
      cases j with
      | zero =>
        simpa using Bool.eq_false_iff.mpr hpre
      | succ k =>
        exact h2 k (Nat.lt_of_succ_lt_succ hj)

theorem Wire.findSub_none_charac {α : Type} [DecidableEq α] (pat : List α) :
    ∀ (s : List α), Wire.findSub pat s = none →
      ∀ j, Wire.isPrefixAt pat (s.drop j) = false := by
  intro s
  induction s with
  | nil =>
    intro h j
    simp only [Wire.findSub] at h
    by_cases hp : pat.isEmpty
    · simp [hp] at h
    · have : pat ≠ [] := by
        intro hnil
        rw [hnil] at hp
        simp [List.isEmpty] at hp
      simpa using Wire.isPrefixAt_nil_right pat this
  | cons a rest ih =>
    intro h j
    simp only [Wire.findSub] at h
    by_cases hpre : Wire.isPrefixAt pat (a :: rest) = true
    · simp [hpre] at h
    · simp [hpre] at h
      cases j with
      | zero =>
        simpa using Bool.eq_false_iff.mpr hpre
      | succ k =>
        exact ih h k

theorem Wire.findSub_of_no_occurrence {α : Type} [DecidableEq α] (pat : List α) :
    ∀ (s : List α), (∀ j, Wire.isPrefixAt pat (s.drop j) = false) →
      Wire.findSub pat s = none := by
  intro s hno
  rcases hf : Wire.findSub pat s with _ | i
  · rfl
  · rcases Wire.findSub_some_charac pat s i hf with ⟨h1, _⟩
    rw [hno i] at h1
    exact absurd h1 (by simp)

namespace Consensus

/-!
Model of the consensus store (consensus.rs).  The `Relay` record mirrors
the fields of `crate::relay::Relay` as they are read and written by
consensus.rs (fingerprint, nickname, address, or_port, flags,
ntor_onion_key, ed25519_identity, microdescriptor_hash, consensus_weight,
bandwidth); the flag set is a list of flag names with membership
semantics.  The consensus cache (`Arc<RwLock<Option<CachedConsensus>>>`)
is modelled as an explicit `Option CachedConsensus` value threaded through
the operations, and `Instant` values as `Nat` ticks, with
`Instant::elapsed` at query time `now` being the (saturating) difference
`now - fetched_at`.  Errors are their message strings.
-/

/-- Relay descriptor, with the fields consensus.rs populates. -/
structure Relay where
  fingerprint : String
  nickname : String
  address : String
  or_port : Nat
  flags : List String
  ntor_onion_key : String
  ed25519_identity : Option String
  microdescriptor_hash : String
  consensus_weight : Nat
  bandwidth : Nat
deriving DecidableEq

/-- Rust `DirectorySource` (consensus.rs lines 22-27). -/
structure DirectorySource where
  name : String
  address : String
  port : Nat
deriving DecidableEq

/-- Rust `CachedConsensus` (consensus.rs lines 57-67): relay list, fetch
instant (ticks), and the two windows counted from it (tick durations). -/
structure CachedConsensus where
  relays : List Relay
  fetched_at : Nat
  fresh_until : Nat
  valid_until : Nat
deriving DecidableEq

/-- Rust `Instant::elapsed` of the fetch instant, evaluated at instant `now`. -/
def elapsedAt (c : CachedConsensus) (now : Nat) : Nat :=
  now - c.fetched_at

/-- Rust `CachedConsensus::is_fresh` (consensus.rs lines 71-73):
`fetched_at.elapsed() < fresh_until`. -/
def CachedConsensus.is_fresh (c : CachedConsensus) (now : Nat) : Bool :=
  decide (elapsedAt c now < c.fresh_until)

/-- Rust `CachedConsensus::is_valid` (consensus.rs lines 76-78):
`fetched_at.elapsed() < valid_until`. -/
def CachedConsensus.is_valid (c : CachedConsensus) (now : Nat) : Bool :=
  decide (elapsedAt c now < c.valid_until)

/-- Outcome of `refresh_consensus` / `get_relays`: the returned
`Result<Vec<Relay>>`, the cache state afterwards, and the list of
directory sources on which `fetch_from_directory` was invoked (in
order), recording which sources were attempted. -/
structure RefreshOutcome where
  result : Except String (List Relay)
  cache : Option CachedConsensus
  attempted : List DirectorySource

/-- The cache entry built on a successful fetch (consensus.rs lines
140-145): fetched now, fresh for 3600 s, valid for 10800 s. -/
def freshCacheEntry (relays : List Relay) (now : Nat) : CachedConsensus :=
  { relays := relays, fetched_at := now, fresh_until := 3600, valid_until := 3600 * 3 }

/-- The loop of `ConsensusManager::refresh_consensus` (consensus.rs lines
132-161), with the per-source fetch-parse-resolve cycle
(`fetch_from_directory`) abstracted as the function `fetch`, the current
instant as `now`, and the accumulated `last_error` made explicit. -/
def refresh_go (fetch : DirectorySource → Except String (List Relay)) (now : Nat)
    (cache : Option CachedConsensus) :
    List DirectorySource → Option String → RefreshOutcome
  | [], last =>
      { result := .error (last.getD "No directory sources available"),
        cache := cache, attempted := [] }
  | d :: rest, _last =>
      match fetch d with
      | .ok relays =>
          { result := .ok relays,
            cache := some (freshCacheEntry relays now),
            attempted := [d] }
      | .error e =>
          let r := refresh_go fetch now cache rest (some e)
          { r with attempted := d :: r.attempted }

/-- Rust `ConsensusManager::refresh_consensus` (consensus.rs lines 129-162):
iterate the directory sources with no error recorded yet. -/
def refresh_consensus (fetch : DirectorySource → Except String (List Relay)) (now : Nat)
    (cache : Option CachedConsensus) (dirs : List DirectorySource) : RefreshOutcome :=
  refresh_go fetch now cache dirs none

/-- Rust `ConsensusManager::get_relays` (consensus.rs lines 107-126): return
the cached relays when fresh, or when stale but still valid; otherwise
fall through to `refresh_consensus`. -/
def get_relays (fetch : DirectorySource → Except String (List Relay)) (now : Nat)
    (cache : Option CachedConsensus) (dirs : List DirectorySource) : RefreshOutcome :=
  match cache with
  | some cached =>
      if cached.is_fresh now then
        { result := .ok cached.relays, cache := cache, attempted := [] }
      else if cached.is_valid now then
        { result := .ok cached.relays, cache := cache, attempted := [] }
      else
        refresh_consensus fetch now cache dirs
  | none => refresh_consensus fetch now cache dirs

/-- Rust `ConsensusManager::needs_refresh` (consensus.rs lines 455-461). -/
def needs_refresh (cache : Option CachedConsensus) (now : Nat) : Bool :=
  match cache with
  | none => true
  | some cached => !(cached.is_fresh now)

/-- One parsed microdescriptor, as consensus.rs reads it from
tor-netdoc: its sha256 content digest and its keys, all hex-encoded
(`hex::encode(md.sha256)`, `hex::encode(md.ntor_onion_key.as_bytes())`,
`hex::encode(md.ed25519_id.as_bytes())`). -/
structure Microdesc where
  sha256 : String
  ntor_onion_key : String
  ed25519_id : String
deriving DecidableEq

/-- HashMap lookup `digest_to_fp.get(&digest)` over an association list
from digest to fingerprint. -/
def lookupFp (digest_to_fp : List (String × String)) (digest : String) : Option String :=
  (digest_to_fp.find? (fun p => p.1 = digest)).map (fun p => p.2)

/-- Rust `relays.iter_mut().find(|r| &r.fingerprint == fingerprint)` followed
by setting the ntor key and ed25519 identity on the found relay
(consensus.rs lines 436-442): rewrite the first relay with the given
fingerprint, leave the rest unchanged. -/
def setKeys (fp key ed : String) : List Relay → List Relay
  | [] => []
  | r :: rs =>
      if r.fingerprint = fp then
        { r with ntor_onion_key := key, ed25519_identity := some ed } :: rs
      else
        r :: setKeys fp key ed rs

/-- Rust `ConsensusManager::parse_microdescriptors` (consensus.rs lines
408-452) on the microdescriptors that parsed successfully from one
batch response: for each document, look its digest up in the
digest-to-fingerprint map and, when found, set that relay's keys.
Documents that fail to parse are skipped and are simply absent from
`docs`. -/
def parse_microdescriptors (docs : List Microdesc)
    (digest_to_fp : List (String × String)) (relays : List Relay) : List Relay :=
  docs.foldl
    (fun rs md =>
      match lookupFp digest_to_fp md.sha256 with
      | some fp => setKeys fp md.ntor_onion_key md.ed25519_id rs
      | none => rs)
    relays

/-- The batch loop of `ConsensusManager::fetch_microdescriptors`
(consensus.rs lines 379-395): each batch is either `none` (its
`http_fetch` failed — skipped, relays unchanged, loop continues) or
`some docs` (the microdescriptors parsed from its response, applied via
`parse_microdescriptors`). -/
def applyBatches (batches : List (Option (List Microdesc)))
    (digest_to_fp : List (String × String)) (relays : List Relay) : List Relay :=
  batches.foldl
    (fun rs b =>
      match b with
      | some docs => parse_microdescriptors docs digest_to_fp rs
      | none => rs)
    relays

/-- Rust `ConsensusManager::fetch_microdescriptors` (consensus.rs lines
364-405): apply every batch, then keep only relays whose ntor key is
non-empty, returning the filtered list as `Ok`. -/
def fetch_microdescriptors (batches : List (Option (List Microdesc)))
    (digest_to_fp : List (String × String)) (relays : List Relay) :
    Except String (List Relay) :=
  .ok ((applyBatches batches digest_to_fp relays).filter
        (fun r => !(r.ntor_onion_key.isEmpty)))

end Consensus

namespace Webtunnel

/-!
Model of the WebTunnel transport configuration (webtunnel.rs).
`WebTunnelConfig::to_wss_url` parses `self.url` with the external `url`
crate and then only reads `url.scheme()`, `url.host_str()`, `url.port()`
and `url.path()`; the parse result is therefore modelled as a `UrlParts`
record of exactly those components, taken as the function's input.
Durations are `Nat` seconds.
-/

/-- The components of a parsed URL that `to_wss_url` reads. -/
structure UrlParts where
  scheme : String
  host : Option String
  port : Option Nat
  path : String
deriving DecidableEq

/-- Rust `WebTunnelConfig` (webtunnel.rs lines 22-32). -/
structure WebTunnelConfig where
  url : String
  fingerprint : String
  server_name : Option String
  connection_timeout : Nat
deriving DecidableEq

/-- Rust `WebTunnelConfig::new` (webtunnel.rs lines 35-42). -/
def WebTunnelConfig.new (url fingerprint : String) : WebTunnelConfig :=
  { url := url, fingerprint := fingerprint, server_name := none,
    connection_timeout := 30 }

/-- Rust `WebTunnelConfig::with_server_name` (webtunnel.rs lines 49-52): the
argument is ignored and `self` is returned as is. -/
def WebTunnelConfig.with_server_name (c : WebTunnelConfig) (_name : String) :
    WebTunnelConfig :=
  c

/-- The scheme rewriting match of `to_wss_url` (webtunnel.rs lines 60-68). -/
def resolve_scheme (s : String) : Except String String :=
  if s = "https" then .ok "wss"
  else if s = "http" then .ok "ws"
  else if s = "wss" ∨ s = "ws" then .ok s
  else .error ("Invalid WebTunnel URL scheme: " ++ s ++
      ". Expected https, http, wss, or ws.")

/-- Rebuild the URL string from components, as the `format!` calls at
webtunnel.rs lines 76-80 do. -/
def format_url (scheme host : String) (port : Option Nat) (path : String) : String :=
  match port with
  | some p => scheme ++ "://" ++ host ++ ":" ++ toString p ++ path
  | none => scheme ++ "://" ++ host ++ path

/-- Rust `WebTunnelConfig::to_wss_url` (webtunnel.rs lines 55-83) on the
parsed components of the configured URL: rewrite the scheme, require a
host, and rebuild the URL with host, port and path unchanged. -/
def to_wss_url (u : UrlParts) : Except String String :=
  match resolve_scheme u.scheme with
  | .error e => .error e
  | .ok scheme =>
      match u.host with
      | none => .error "WebTunnel URL missing host"
      | some host => .ok (format_url scheme host u.port u.path)

/-- The components of `to_wss_url`'s output: the rewritten scheme with
the host, port and path carried over.  `to_wss_url` is the formatting of
this record (`to_wss_url_eq_format`), so this is the component-level
view of the same source function. -/
def to_wss_parts (u : UrlParts) : Except String UrlParts :=
  match resolve_scheme u.scheme with
  | .error e => .error e
  | .ok scheme =>
      match u.host with
      | none => .error "WebTunnel URL missing host"
      | some _ => .ok { u with scheme := scheme }

end Webtunnel

theorem Webtunnel.to_wss_url_eq_format (u : Webtunnel.UrlParts) :
    Webtunnel.to_wss_url u =
      (Webtunnel.to_wss_parts u).map
        (fun v => Webtunnel.format_url v.scheme (v.host.getD "") v.port v.path) := by
  unfold Webtunnel.to_wss_url Webtunnel.to_wss_parts
  rcases hs : Webtunnel.resolve_scheme u.scheme with e | scheme
  · rfl
  · rcases hh : u.host with _ | host
    · rfl
    · simp [hh, Except.map]

namespace Directory

/-!
Model of `DirectoryManager::process_consensus` (directory.rs lines
99-111): the function logs the document and returns `Ok(0)`; the parsing
logic is explicitly left unimplemented ("specific parsing logic to be
added"), so the result does not depend on the document at all and the
relay manager is never updated.
-/

/-- Rust `DirectoryManager::process_consensus` (directory.rs lines 99-111):
returns `Ok(0)` for every input. -/
def process_consensus (_consensus_str : String) : Except String Nat :=
  .ok 0

/-- Modelled from the spec: what §4.4 says `fetch_consensus` does with
the body — hand it "to the same parsing logic as §4.2 step 3 onward",
i.e. the body is parsed by `ConsensusManager`'s parse step (abstracted
here as the function `parse`, since the actual primary-document parser
lives in the external tor-netdoc crate) and the tunnel path yields the
relays that parse produces.  It is the refinement comparator for the
source's `process_consensus`, reporting the number of parsed relays. -/
def process_consensus_spec (parse : String → Except String (List Consensus.Relay))
    (consensus_str : String) : Except String Nat :=
  (parse consensus_str).map List.length

/-- A relay as a possible outcome of the consensus parse step, used to
exhibit the divergence of the over-tunnel processing from the plaintext
parse pipeline. -/
def sampleRelay : Consensus.Relay :=
  { fingerprint := "aa", nickname := "r", address := "1.2.3.4", or_port := 9001,
    flags := ["Fast"], ntor_onion_key := "bb", ed25519_identity := none,
    microdescriptor_hash := "cc", consensus_weight := 10, bandwidth := 10 }

end Directory

/-- C6: for every stored tick value `v` and query instant `now`,
`time_since_update_at` returns `none` exactly when `v` is the zero
sentinel or `now` precedes `v`; otherwise it returns `some (now - v)`;
and whenever it returns a duration `d`, `v ≤ now` holds and
`d = now - v` (so the duration is never negative), making a
backwards-running clock indistinguishable from a never-set marker. -/
theorem c6_elapsed_query (v now : Nat) :
    (Ts.time_since_update_at v now = none ↔ (v = 0 ∨ now < v)) ∧
    (v ≠ 0 → v ≤ now → Ts.time_since_update_at v now = some (now - v)) ∧
    (∀ d, Ts.time_since_update_at v now = some d → v ≤ now ∧ d = now - v) := by
  simp only [Ts.time_since_update_at]
  split
  next hc =>
    refine ⟨?_, fun _ _ => rfl, ?_⟩
    · constructor
      · intro h
        exact absurd h (by simp)
      · intro h
        exact absurd h (by omega)
    · intro d hd
      injection hd with h
      subst h
      exact ⟨hc.1, rfl⟩
  next hc =>
    refine ⟨?_, ?_, ?_⟩
    · constructor
      · intro _
        omega
      · intro _
        rfl
    · intro h1 h2
      exact absurd ⟨h2, h1⟩ hc
    · intro d hd
      exact absurd hd (by simp)

/-- Witness for C6 at the concrete marker value 5 queried at instant 7. -/
theorem c6_elapsed_query_witness : Ts.time_since_update_at 5 7 = some 2 :=
  (c6_elapsed_query 5 7).2.1 (by decide) (by decide)

/-- C7: the stored tick is non-decreasing under `update_to` (which sets
it to `max current now` and is a no-op when `now` is not later) and
under `update_if_none` (which writes only on the zero sentinel and is a
no-op once any value is set); `clear` resets to the sentinel 0, the only
decrease. -/
theorem c7_monotonic_advance (v now : Nat) :
    v ≤ Ts.update_to v now ∧
    Ts.update_to v now = max v now ∧
    (now ≤ v → Ts.update_to v now = v) ∧
    v ≤ Ts.update_if_none v now ∧
    (v ≠ 0 → Ts.update_if_none v now = v) ∧
    Ts.update_if_none 0 now = now ∧
    Ts.clear v = 0 := by
  refine ⟨Nat.le_max_left v now, rfl, fun h => Nat.max_eq_left h, ?_, ?_, ?_, rfl⟩
  · by_cases h : v = 0
    · subst h
      simp [Ts.update_if_none]
    · simp [Ts.update_if_none, h]
  · intro h
    simp [Ts.update_if_none, h]
  · simp [Ts.update_if_none]

/-- Witness for C7 at concrete values: advancing 5 to 3 is a no-op, and
`update_if_none` on the already-set value 4 is a no-op. -/
theorem c7_monotonic_advance_witness :
    Ts.update_to 5 3 = 5 ∧ Ts.update_if_none 4 9 = 4 :=
  ⟨(c7_monotonic_advance 5 3).2.2.1 (by decide),
   (c7_monotonic_advance 4 9).2.2.2.2.1 (by decide)⟩

/-- C10: `with_server_name` returns the configuration completely
unchanged — the argument is discarded, `server_name` keeps its prior
value (which is `none` after `new`), and no field is modified. -/
theorem c10_with_server_name_frame (c : Webtunnel.WebTunnelConfig) (n : String) :
    c.with_server_name n = c ∧
    (c.with_server_name n).server_name = c.server_name ∧
    (∀ u f, (Webtunnel.WebTunnelConfig.new u f).server_name = none) ∧
    (∀ u f, ((Webtunnel.WebTunnelConfig.new u f).with_server_name n) =
        Webtunnel.WebTunnelConfig.new u f) :=
  ⟨rfl, rfl, fun _ _ => rfl, fun _ _ => rfl⟩

/-- C5 (code observation): `DirectoryManager::process_consensus` is a
stub — it returns `Ok(0)` for every document, ignoring its input
entirely, and therefore does not hand the body to the consensus parsing
logic of the plaintext path: with a parse step that yields one relay on
a document, the spec-side pipeline reports one relay while the tunnel
path reports zero. -/
theorem c5_process_consensus_stub :
    (∀ s, Directory.process_consensus s = .ok 0) ∧
    Directory.process_consensus "network-status-version 3" = .ok 0 ∧
    Directory.process_consensus_spec (fun _ => .ok [Directory.sampleRelay])
        "network-status-version 3" = .ok 1 :=
  ⟨fun _ => rfl, rfl, rfl⟩

/-- C1 counterexample: on a response with no `\r\n\r\n` boundary the
plaintext bootstrap path (`ConsensusManager::http_fetch`) fails with
"Invalid HTTP response" instead of treating the entire payload as body,
while the over-tunnel path does treat the entire payload as body. -/
theorem c1_counterexample :
    Wire.findSub Wire.httpBoundary ['a'] = none ∧
    Wire.http_fetch_body ['a'] = .error "Invalid HTTP response" ∧
    Wire.dir_fetch_body [97] = [97] :=
  ⟨rfl, rfl, rfl⟩

/-- C1 amended: on the over-tunnel path
(`DirectoryManager::fetch_consensus`) a response with no `\r\n\r\n`
boundary is treated entirely as body, but on the plaintext bootstrap
path (`ConsensusManager::http_fetch`) the absence of the boundary is an
error ("Invalid HTTP response"); when the boundary is present, both
paths take exactly the bytes after the first `\r\n\r\n` as the body. -/
theorem c1_amended_boundary_handling :
    (∀ (r : List Char), (∀ j, Wire.isPrefixAt Wire.httpBoundary (r.drop j) = false) →
        Wire.http_fetch_body r = .error "Invalid HTTP response") ∧
    (∀ (r : List Char) (i : Nat), Wire.findSub Wire.httpBoundary r = some i →
        Wire.http_fetch_body r = .ok (r.drop (i + 4)) ∧
        Wire.isPrefixAt Wire.httpBoundary (r.drop i) = true ∧
        ∀ j, j < i → Wire.isPrefixAt Wire.httpBoundary (r.drop j) = false) ∧
    (∀ (b : List Nat), (∀ j, Wire.isPrefixAt Wire.dirBoundary (b.drop j) = false) →
        Wire.dir_fetch_body b = b) ∧
    (∀ (b : List Nat) (i : Nat), Wire.findSub Wire.dirBoundary b = some i →
        Wire.dir_fetch_body b = b.drop (i + 4) ∧
        Wire.isPrefixAt Wire.dirBoundary (b.drop i) = true ∧
        ∀ j, j < i → Wire.isPrefixAt Wire.dirBoundary (b.drop j) = false) := by
  refine ⟨?_, ?_, ?_, ?_⟩
  · intro r hno
    have hn := Wire.findSub_of_no_occurrence Wire.httpBoundary r hno
    simp only [Wire.http_fetch_body, hn]
  · intro r i hf
    rcases Wire.findSub_some_charac Wire.httpBoundary r i hf with ⟨h1, h2⟩
    exact ⟨by simp only [Wire.http_fetch_body, hf], h1, h2⟩
  · intro b hno
    have hn := Wire.findSub_of_no_occurrence Wire.dirBoundary b hno
    simp only [Wire.dir_fetch_body, hn, Option.map_none', Option.getD_none,
      List.drop_zero]
  · intro b i hf
    rcases Wire.findSub_some_charac Wire.dirBoundary b i hf with ⟨h1, h2⟩
    refine ⟨?_, h1, h2⟩
    simp only [Wire.dir_fetch_body, hf, Option.map_some', Option.getD_some]

/-- Witness for the amended C1 at concrete responses: a plaintext
response whose boundary sits after one byte of header, and an
over-tunnel byte response with the boundary at the start. -/
theorem c1_amended_boundary_handling_witness :
    Wire.http_fetch_body ['a', '\r', '\n', '\r', '\n', 'b'] = .ok ['b'] ∧
    Wire.dir_fetch_body [13, 10, 13, 10, 7] = [7] :=
  ⟨(c1_amended_boundary_handling.2.1 ['a', '\r', '\n', '\r', '\n', 'b'] 1 rfl).1,
   (c1_amended_boundary_handling.2.2.2 [13, 10, 13, 10, 7] 0 rfl).1⟩

/-- C3: endpoint resolution rewrites `https` to `wss` and `http` to
`ws`, passes `ws`/`wss` through unchanged, and returns a configuration
error for any other scheme; host, port and path are carried over
verbatim, no port token is inserted when the URL has none, and resolving
an already-resolved URL is a no-op (idempotence). -/
theorem c3_resolve_endpoint (u : Webtunnel.UrlParts) :
    (u.scheme ≠ "https" → u.scheme ≠ "http" → u.scheme ≠ "wss" → u.scheme ≠ "ws" →
        Webtunnel.to_wss_url u = .error ("Invalid WebTunnel URL scheme: " ++ u.scheme ++
          ". Expected https, http, wss, or ws.")) ∧
    (∀ host, u.host = some host →
      (u.scheme = "https" → Webtunnel.to_wss_parts u = .ok { u with scheme := "wss" }) ∧
      (u.scheme = "http" → Webtunnel.to_wss_parts u = .ok { u with scheme := "ws" }) ∧
      ((u.scheme = "wss" ∨ u.scheme = "ws") →
          Webtunnel.to_wss_parts u = .ok u ∧
          Webtunnel.to_wss_url u =
            .ok (Webtunnel.format_url u.scheme host u.port u.path)) ∧
      (∀ v, Webtunnel.to_wss_parts u = .ok v →
          v.host = u.host ∧ v.port = u.port ∧ v.path = u.path ∧
          Webtunnel.to_wss_parts v = .ok v ∧
          Webtunnel.to_wss_url u = .ok (Webtunnel.format_url v.scheme host v.port v.path)) ∧
      (u.port = none → u.scheme = "https" →
          Webtunnel.to_wss_url u = .ok ("wss" ++ "://" ++ host ++ u.path))) := by
  obtain ⟨us, uh, up, upa⟩ := u
  constructor
  · intro h1 h2 h3 h4
    simp only at h1 h2 h3 h4
    simp [Webtunnel.to_wss_url, Webtunnel.resolve_scheme, h1, h2, h3, h4]
  · intro host hh
    simp only at hh
    subst hh
    refine ⟨?_, ?_, ?_, ?_, ?_⟩
    · intro hs
      simp only at hs
      subst hs
      simp [Webtunnel.to_wss_parts, Webtunnel.resolve_scheme]
    · intro hs
      simp only at hs
      subst hs
      simp [Webtunnel.to_wss_parts, Webtunnel.resolve_scheme]
    · intro hs
      simp only at hs
      rcases hs with hs | hs
      all_goals subst hs
      all_goals constructor
      · simp [Webtunnel.to_wss_parts, Webtunnel.resolve_scheme]
      · simp [Webtunnel.to_wss_url, Webtunnel.resolve_scheme]
      · simp [Webtunnel.to_wss_parts, Webtunnel.resolve_scheme]
      · simp [Webtunnel.to_wss_url, Webtunnel.resolve_scheme]
    · intro v hv
      by_cases h1 : us = "https"
      · subst h1
        simp [Webtunnel.to_wss_parts, Webtunnel.resolve_scheme] at hv
        subst hv
        refine ⟨rfl, rfl, rfl, ?_, ?_⟩
        · simp [Webtunnel.to_wss_parts, Webtunnel.resolve_scheme]
        · simp [Webtunnel.to_wss_url, Webtunnel.resolve_scheme]
      · by_cases h2 : us = "http"
        · subst h2
          simp [Webtunnel.to_wss_parts, Webtunnel.resolve_scheme] at hv
          subst hv
          refine ⟨rfl, rfl, rfl, ?_, ?_⟩
          · simp [Webtunnel.to_wss_parts, Webtunnel.resolve_scheme]
          · simp [Webtunnel.to_wss_url, Webtunnel.resolve_scheme]
        · by_cases h3 : us = "wss"
          · subst h3
            simp [Webtunnel.to_wss_parts, Webtunnel.resolve_scheme] at hv
            subst hv
            refine ⟨rfl, rfl, rfl, ?_, ?_⟩
            · simp [Webtunnel.to_wss_parts, Webtunnel.resolve_scheme]
            · simp [Webtunnel.to_wss_url, Webtunnel.resolve_scheme]
          · by_cases h4 : us = "ws"
            · subst h4
              simp [Webtunnel.to_wss_parts, Webtunnel.resolve_scheme] at hv
              subst hv
              refine ⟨rfl, rfl, rfl, ?_, ?_⟩
              · simp [Webtunnel.to_wss_parts, Webtunnel.resolve_scheme]
              · simp [Webtunnel.to_wss_url, Webtunnel.resolve_scheme]
            · exfalso
              simp [Webtunnel.to_wss_parts, Webtunnel.resolve_scheme,
                h1, h2, h3, h4] at hv
    · intro hp hs
      simp only at hp hs
      subst hs
      subst hp
      simp [Webtunnel.to_wss_url, Webtunnel.resolve_scheme, Webtunnel.format_url]

/-- Witness for C3 at the concrete URLs of the source's unit tests:
`https://example.com:8443/path` resolves to `wss://example.com:8443/path`
and `wss://example.com/path` resolves to itself. -/
theorem c3_resolve_endpoint_witness :
    Webtunnel.to_wss_parts
        { scheme := "https", host := some "example.com", port := some 8443, path := "/path" } =
      .ok { scheme := "wss", host := some "example.com", port := some 8443, path := "/path" } ∧
    Webtunnel.to_wss_parts
        { scheme := "wss", host := some "example.com", port := none, path := "/path" } =
      .ok { scheme := "wss", host := some "example.com", port := none, path := "/path" } :=
  ⟨((c3_resolve_endpoint
        { scheme := "https", host := some "example.com", port := some 8443, path := "/path" }).2
      "example.com" rfl).1 rfl,
   (((c3_resolve_endpoint
        { scheme := "wss", host := some "example.com", port := none, path := "/path" }).2
      "example.com" rfl).2.2.1 (Or.inl rfl)).1⟩

-- Helper lemmas about the refresh loop, shared by the cache-window and
-- fallback-iteration theorems.

theorem Consensus.refresh_go_cons_ok
    (fetch : Consensus.DirectorySource → Except String (List Consensus.Relay))
    (now : Nat) (cache : Option Consensus.CachedConsensus)
    (a : Consensus.DirectorySource) (rest : List Consensus.DirectorySource)
    (last : Option String) (ra : List Consensus.Relay)
    (hfa : fetch a = .ok ra) :
    Consensus.refresh_go fetch now cache (a :: rest) last =
      { result := .ok ra, cache := some (Consensus.freshCacheEntry ra now),
        attempted := [a] } := by
  simp only [Consensus.refresh_go, hfa]

theorem Consensus.refresh_go_cons_error
    (fetch : Consensus.DirectorySource → Except String (List Consensus.Relay))
    (now : Nat) (cache : Option Consensus.CachedConsensus)
    (a : Consensus.DirectorySource) (rest : List Consensus.DirectorySource)
    (last : Option String) (ea : String)
    (hfa : fetch a = .error ea) :
    Consensus.refresh_go fetch now cache (a :: rest) last =
      { result := (Consensus.refresh_go fetch now cache rest (some ea)).result,
        cache := (Consensus.refresh_go fetch now cache rest (some ea)).cache,
        attempted := a :: (Consensus.refresh_go fetch now cache rest (some ea)).attempted } := by
  simp only [Consensus.refresh_go, hfa]

theorem Consensus.refresh_go_all_fail
    (fetch : Consensus.DirectorySource → Except String (List Consensus.Relay))
    (now : Nat) (cache : Option Consensus.CachedConsensus) :
    ∀ (dirs : List Consensus.DirectorySource) (last : Option String)
      (d : Consensus.DirectorySource) (e : String),
      dirs.getLast? = some d → fetch d = .error e →
      (∀ s ∈ dirs, ∃ e2, fetch s = .error e2) →
      Consensus.refresh_go fetch now cache dirs last =
        { result := .error e, cache := cache, attempted := dirs } := by
  intro dirs
  induction dirs with
  | nil =>
    intro last d e hlast _ _
    exact absurd hlast (by simp)
  | cons a rest ih =>
    intro last d e hlast hde hall
    rcases hfa : fetch a with ea | ra
    case error =>
      cases rest with
      | nil =>
        simp only [List.getLast?_singleton, Option.some.injEq] at hlast
        subst hlast
        rw [hfa] at hde
        injection hde with he
        subst he
        simp [Consensus.refresh_go, hfa]
      | cons b rest2 =>
        rw [List.getLast?_cons_cons] at hlast
        have hrec := ih (some ea) d e hlast hde
          (fun s hs => hall s (List.mem_cons_of_mem a hs))
        rw [Consensus.refresh_go_cons_error fetch now cache a (b :: rest2) last ea hfa, hrec]
    case ok =>
      rcases hall a (List.mem_cons_self a rest) with ⟨e2, he2⟩
      rw [hfa] at he2
      exact absurd he2 (by simp)

theorem Consensus.refresh_go_skip_failures
    (fetch : Consensus.DirectorySource → Except String (List Consensus.Relay))
    (now : Nat) (cache : Option Consensus.CachedConsensus)
    (d : Consensus.DirectorySource) (rest : List Consensus.DirectorySource)
    (relays : List Consensus.Relay) (hd : fetch d = .ok relays) :
    ∀ (failed : List Consensus.DirectorySource) (last : Option String),
      (∀ s ∈ failed, ∃ e, fetch s = .error e) →
      Consensus.refresh_go fetch now cache (failed ++ d :: rest) last =
        { result := .ok relays,
          cache := some (Consensus.freshCacheEntry relays now),
          attempted := failed ++ [d] } := by
  intro failed
  induction failed with
  | nil =>
    intro last _
    simp [Consensus.refresh_go, hd]
  | cons f fs ih =>
    intro last hall
    rcases hall f (List.mem_cons_self f fs) with ⟨e, he⟩
    have hrec := ih (some e) (fun s hs => hall s (List.mem_cons_of_mem f hs))
    rw [List.cons_append,
      Consensus.refresh_go_cons_error fetch now cache f (fs ++ d :: rest) last e he, hrec,
      List.cons_append]

theorem Consensus.refresh_go_ok_cache
    (fetch : Consensus.DirectorySource → Except String (List Consensus.Relay))
    (now : Nat) (cache : Option Consensus.CachedConsensus) :
    ∀ (dirs : List Consensus.DirectorySource) (last : Option String)
      (relays : List Consensus.Relay),
      (Consensus.refresh_go fetch now cache dirs last).result = .ok relays →
      (Consensus.refresh_go fetch now cache dirs last).cache =
        some (Consensus.freshCacheEntry relays now) := by
  intro dirs
  induction dirs with
  | nil =>
    intro last relays h
    simp only [Consensus.refresh_go] at h
    exact absurd h (by simp)
  | cons a rest ih =>
    intro last relays h
    rcases hfa : fetch a with ea | ra
    case error =>
      simp only [Consensus.refresh_go, hfa] at h ⊢
      exact ih (some ea) relays h
    case ok =>
      simp only [Consensus.refresh_go, hfa, Except.ok.injEq] at h ⊢
      subst h
      rfl

/-- C2: `refresh_consensus` tries the ordered sources one by one; when
the sources before `d` all fail and `d` succeeds with `relays`, it
returns `relays`, replaces the cache, and attempts no source after `d`;
when every source fails it returns the error of the last source leaving
the cache untouched; and on an empty source list it returns the generic
"No directory sources available" error. -/
theorem c2_refresh_fallback
    (fetch : Consensus.DirectorySource → Except String (List Consensus.Relay))
    (now : Nat) (cache : Option Consensus.CachedConsensus) :
    (Consensus.refresh_consensus fetch now cache [] =
        { result := .error "No directory sources available",
          cache := cache, attempted := [] }) ∧
    (∀ failed d rest relays,
        (∀ s ∈ failed, ∃ e, fetch s = .error e) →
        fetch d = .ok relays →
        Consensus.refresh_consensus fetch now cache (failed ++ d :: rest) =
          { result := .ok relays,
            cache := some (Consensus.freshCacheEntry relays now),
            attempted := failed ++ [d] }) ∧
    (∀ dirs d e,
        dirs.getLast? = some d → fetch d = .error e →
        (∀ s ∈ dirs, ∃ e2, fetch s = .error e2) →
        Consensus.refresh_consensus fetch now cache dirs =
          { result := .error e, cache := cache, attempted := dirs }) := by
  refine ⟨rfl, ?_, ?_⟩
  · intro failed d rest relays hfail hd
    exact Consensus.refresh_go_skip_failures fetch now cache d rest relays hd failed none hfail
  · intro dirs d e hlast hde hall
    exact Consensus.refresh_go_all_fail fetch now cache dirs none d e hlast hde hall

namespace Wit

/-! Concrete data for evaluating the theorems at explicit inputs. -/

/-- A resolved relay (non-empty ntor key), as a directory source could return it. -/
def relayA : Consensus.Relay :=
  { fingerprint := "f0", nickname := "alpha", address := "192.0.2.1", or_port := 443,
    flags := ["Fast", "Guard"], ntor_onion_key := "6b6b", ed25519_identity := none,
    microdescriptor_hash := "d0", consensus_weight := 5, bandwidth := 5 }

/-- An unresolved relay whose secondary document is served by a batch. -/
def relay1 : Consensus.Relay :=
  { fingerprint := "f1", nickname := "one", address := "192.0.2.2", or_port := 9001,
    flags := [], ntor_onion_key := "", ed25519_identity := none,
    microdescriptor_hash := "d1", consensus_weight := 1, bandwidth := 1 }

/-- An unresolved relay whose secondary document is never served. -/
def relay2 : Consensus.Relay :=
  { fingerprint := "f2", nickname := "two", address := "192.0.2.3", or_port := 9002,
    flags := [], ntor_onion_key := "", ed25519_identity := none,
    microdescriptor_hash := "d2", consensus_weight := 2, bandwidth := 2 }

/-- Relay `relay1` after its microdescriptor has been applied. -/
def relay1R : Consensus.Relay :=
  { relay1 with ntor_onion_key := "6e74", ed25519_identity := some "6564" }

/-- Digest-to-fingerprint map for the batch scenario. -/
def digestMap : List (String × String) := [("d1", "f1"), ("d2", "f2")]

/-- Batches: the first fetch fails (skipped), the second serves `d1`. -/
def batches : List (Option (List Consensus.Microdesc)) :=
  [none, some [{ sha256 := "d1", ntor_onion_key := "6e74", ed25519_id := "6564" }]]

/-- Directory sources for the fallback scenario. -/
def dirBad : Consensus.DirectorySource :=
  { name := "bad", address := "203.0.113.1", port := 80 }

def dirGood : Consensus.DirectorySource :=
  { name := "good", address := "203.0.113.2", port := 80 }

def dirAfter : Consensus.DirectorySource :=
  { name := "after", address := "203.0.113.3", port := 80 }

/-- A fetch-parse-resolve cycle outcome: "bad" fails, "good" yields one relay. -/
def fetchF (s : Consensus.DirectorySource) : Except String (List Consensus.Relay) :=
  if s.name = "bad" then .error "down"
  else if s.name = "good" then .ok [relayA]
  else .error "unreachable"

/-- A cache entry that is fresh at instant 1. -/
def cacheFresh : Consensus.CachedConsensus :=
  { relays := [relayA], fetched_at := 0, fresh_until := 10, valid_until := 20 }

end Wit

/-- Witness for C2: with sources bad, good, after — where bad fails and
good succeeds with one relay — refresh returns good's relays, replaces
the cache, and never attempts the source after good. -/
theorem c2_refresh_fallback_witness :
    Consensus.refresh_consensus Wit.fetchF 100 none [Wit.dirBad, Wit.dirGood, Wit.dirAfter] =
      { result := .ok [Wit.relayA],
        cache := some (Consensus.freshCacheEntry [Wit.relayA] 100),
        attempted := [Wit.dirBad, Wit.dirGood] } := by
  have h := (c2_refresh_fallback Wit.fetchF 100 none).2.1
    [Wit.dirBad] Wit.dirGood [Wit.dirAfter] [Wit.relayA]
    (by
      intro s hs
      rw [List.mem_singleton] at hs
      subst hs
      exact ⟨"down", rfl⟩)
    rfl
  exact h

/-- C4: whatever the batch outcomes (failed batches are skipped, not
fatal), `fetch_microdescriptors` succeeds with exactly the post-batch
relays whose ntor key is non-empty: every returned relay has a non-empty
handshake key, every relay still unresolved (empty key) after all
batches is absent from the result, and an empty post-filter list is
still returned as success. -/
theorem c4_usable_relays (batches : List (Option (List Consensus.Microdesc)))
    (digest_to_fp : List (String × String)) (relays : List Consensus.Relay) :
    Consensus.fetch_microdescriptors batches digest_to_fp relays =
      .ok ((Consensus.applyBatches batches digest_to_fp relays).filter
            (fun r => !(r.ntor_onion_key.isEmpty))) ∧
    (∀ l, Consensus.fetch_microdescriptors batches digest_to_fp relays = .ok l →
        (∀ r ∈ l, r.ntor_onion_key ≠ "") ∧
        (∀ r ∈ Consensus.applyBatches batches digest_to_fp relays,
            r.ntor_onion_key = "" → r ∉ l)) := by
  refine ⟨rfl, ?_⟩
  intro l hl
  simp only [Consensus.fetch_microdescriptors, Except.ok.injEq] at hl
  subst hl
  constructor
  · intro r hr
    rw [List.mem_filter] at hr
    intro he
    have h2 := hr.2
    rw [he] at h2
    exact absurd h2 (by decide)
  · intro r _ he hmem
    rw [List.mem_filter] at hmem
    have h2 := hmem.2
    rw [he] at h2
    exact absurd h2 (by decide)

/-- Witness for C4: with one failed batch and one batch resolving only
`relay1`, the result is exactly the resolved `relay1` (with its new
keys) and the never-resolved `relay2` is absent. -/
theorem c4_usable_relays_witness :
    Consensus.fetch_microdescriptors Wit.batches Wit.digestMap [Wit.relay1, Wit.relay2] =
      .ok [Wit.relay1R] ∧
    Wit.relay2 ∉ [Wit.relay1R] := by
  have h := c4_usable_relays Wit.batches Wit.digestMap [Wit.relay1, Wit.relay2]
  constructor
  · rw [h.1]
    rfl
  · have h3 := (h.2 ((Consensus.applyBatches Wit.batches Wit.digestMap
        [Wit.relay1, Wit.relay2]).filter (fun r => !(r.ntor_onion_key.isEmpty))) h.1).2
      Wit.relay2 (by decide) rfl
    intro hmem
    exact h3 (by
      have he : ([Wit.relay1R] : List Consensus.Relay) =
          (Consensus.applyBatches Wit.batches Wit.digestMap
            [Wit.relay1, Wit.relay2]).filter (fun r => !(r.ntor_onion_key.isEmpty)) := by
        decide
      rw [← he]
      exact hmem)

/-- C8 counterexample: with fresh-window 0 and valid-window 1 (so
d1 < d2), the cache is already not fresh at the very instant it was
fetched, contradicting "immediately after creation it is both fresh and
valid". -/
theorem c8_counterexample :
    (0 : Nat) < 1 ∧
    Consensus.CachedConsensus.is_fresh
      { relays := [], fetched_at := 0, fresh_until := 0, valid_until := 1 } 0 = false ∧
    Consensus.CachedConsensus.is_valid
      { relays := [], fetched_at := 0, fresh_until := 0, valid_until := 1 } 0 = true := by
  refine ⟨by decide, rfl, rfl⟩

/-- C8 amended: for a cache with 0 < fresh-window < valid-window, both
`is_fresh` and `is_valid` are elapsed-time tests against the single
fetch instant: at the fetch instant it is fresh and valid, once the
fresh window has elapsed but not the valid window it is valid but not
fresh, once the valid window has elapsed it is neither, and freshness
implies validity; moreover the cache installed by a successful refresh
carries the fixed windows of 3600 s fresh and 3 * 3600 s valid. -/
theorem c8_amended_windows (c : Consensus.CachedConsensus) (now : Nat)
    (h1 : 0 < c.fresh_until) (h2 : c.fresh_until < c.valid_until) :
    (now = c.fetched_at → c.is_fresh now = true ∧ c.is_valid now = true) ∧
    (c.fresh_until ≤ Consensus.elapsedAt c now →
        Consensus.elapsedAt c now < c.valid_until →
        c.is_fresh now = false ∧ c.is_valid now = true) ∧
    (c.valid_until ≤ Consensus.elapsedAt c now →
        c.is_fresh now = false ∧ c.is_valid now = false) ∧
    (c.is_fresh now = true → c.is_valid now = true) ∧
    (∀ (fetch : Consensus.DirectorySource → Except String (List Consensus.Relay))
        (t : Nat) (cache : Option Consensus.CachedConsensus)
        (dirs : List Consensus.DirectorySource) (relays : List Consensus.Relay),
        (Consensus.refresh_consensus fetch t cache dirs).result = .ok relays →
        (Consensus.refresh_consensus fetch t cache dirs).cache =
          some { relays := relays, fetched_at := t,
                 fresh_until := 3600, valid_until := 3600 * 3 }) := by
  refine ⟨?_, ?_, ?_, ?_, ?_⟩
  · intro hnow
    subst hnow
    constructor <;>
      simp [Consensus.CachedConsensus.is_fresh, Consensus.CachedConsensus.is_valid,
        Consensus.elapsedAt] <;> omega
  · intro ha hb
    constructor <;>
      simp [Consensus.CachedConsensus.is_fresh, Consensus.CachedConsensus.is_valid,
        Consensus.elapsedAt] at ha hb ⊢ <;> omega
  · intro ha
    constructor <;>
      simp [Consensus.CachedConsensus.is_fresh, Consensus.CachedConsensus.is_valid,
        Consensus.elapsedAt] at ha ⊢ <;> omega
  · intro hf
    simp [Consensus.CachedConsensus.is_fresh, Consensus.CachedConsensus.is_valid,
      Consensus.elapsedAt] at hf ⊢
    omega
  · intro fetch t cache dirs relays h
    exact Consensus.refresh_go_ok_cache fetch t cache dirs none relays h

/-- Witness for the amended C8: a cache fetched at 0 with windows 2 and
5, queried at instant 3, is stale but still valid. -/
theorem c8_amended_windows_witness :
    Consensus.CachedConsensus.is_fresh
      { relays := [], fetched_at := 0, fresh_until := 2, valid_until := 5 } 3 = false ∧
    Consensus.CachedConsensus.is_valid
      { relays := [], fetched_at := 0, fresh_until := 2, valid_until := 5 } 3 = true :=
  (c8_amended_windows
      { relays := [], fetched_at := 0, fresh_until := 2, valid_until := 5 } 3
      (by decide) (by decide)).2.1 (by decide) (by decide)

/-- C9: `get_relays` returns the cached list with no fetch whenever the
cache is fresh, and also when it is stale-but-valid; only with no cache
or an invalid cache does it fall through to a blocking
`refresh_consensus`; and `needs_refresh` is true exactly when there is
no cache or the cached directory is not fresh. -/
theorem c9_get_relays_policy
    (fetch : Consensus.DirectorySource → Except String (List Consensus.Relay))
    (now : Nat) (cache : Option Consensus.CachedConsensus)
    (dirs : List Consensus.DirectorySource) :
    (∀ c, cache = some c → c.is_fresh now = true →
        Consensus.get_relays fetch now cache dirs =
          { result := .ok c.relays, cache := cache, attempted := [] }) ∧
    (∀ c, cache = some c → c.is_fresh now = false → c.is_valid now = true →
        Consensus.get_relays fetch now cache dirs =
          { result := .ok c.relays, cache := cache, attempted := [] }) ∧
    (cache = none →
        Consensus.get_relays fetch now cache dirs =
          Consensus.refresh_consensus fetch now cache dirs) ∧
    (∀ c, cache = some c → c.is_fresh now = false → c.is_valid now = false →
        Consensus.get_relays fetch now cache dirs =
          Consensus.refresh_consensus fetch now cache dirs) ∧
    (Consensus.needs_refresh cache now = true ↔
        cache = none ∨ ∃ c, cache = some c ∧ c.is_fresh now = false) := by
  refine ⟨?_, ?_, ?_, ?_, ?_⟩
  · intro c hc hf
    subst hc
    simp [Consensus.get_relays, hf]
  · intro c hc hf hv
    subst hc
    simp [Consensus.get_relays, hf, hv]
  · intro hc
    subst hc
    rfl
  · intro c hc hf hv
    subst hc
    simp [Consensus.get_relays, hf, hv, Consensus.refresh_consensus]
  · cases cache with
    | none => simp [Consensus.needs_refresh]
    | some c => simp [Consensus.needs_refresh]

/-- Witness for C9: a fresh cache at instant 1 is returned as is, with
no source attempted, and does not need a refresh. -/
theorem c9_get_relays_policy_witness :
    Consensus.get_relays Wit.fetchF 1 (some Wit.cacheFresh) [Wit.dirGood] =
      { result := .ok Wit.cacheFresh.relays, cache := some Wit.cacheFresh,
        attempted := [] } :=
  (c9_get_relays_policy Wit.fetchF 1 (some Wit.cacheFresh) [Wit.dirGood]).1
    Wit.cacheFresh rfl (by decide)
